import Mathlib

/-!
Verification development for the RustySpider core pipeline
(prediction → two-stage discovery → submission → per-item persistence).

The Rust source is embedded shallowly:

* `Content`, `WebFile`, `WebResponse` mirror `src/modules/types.rs`.
  The Rust field names `prefix` and `postfix` are rendered as `pre` and
  `post`; `first_prefix`/`second_prefix` as `firstLabel`/`secondLabel`.
  The `u32` counters are embedded as `Nat`, with the source's `+= 1`
  taken modulo `2^32` (release-profile wrapping semantics) at the
  operation sites; `digits` (`usize`) is a `Nat`.
* `to_query` and `predict_new_content` mirror `src/modules/content.rs`.
* `filter_by_keywords` and `TwoStageWeb.find` mirror `src/modules/crawlers.rs`;
  the network, URL and HTML collaborators (reqwest, url, scraper) are
  abstracted as an explicit environment `WebEnv` of pure oracles, and the
  two `if let Ok(..) = url.join(..)` loops become `collectResolved` /
  `firstResolvedLink`.
* `add_url_blocking` and `QBFetcher.fetch` mirror `src/modules/fetchers.rs`,
  with the HTTP session abstracted as `QBEnv` and the requests actually
  issued recorded in a trace of `Req` values.
* `runMain` mirrors the record/candidate loops of `main` in `src/main.rs`;
  `none` models abnormal termination (the panic of indexing an empty
  strategy vector, or a propagated load/save error).
-/

namespace RustySpider

/-- The tracked media item (struct `Content`, src/modules/types.rs).
`pre`/`post` stand for the Rust fields `prefix`/`postfix`, and
`firstLabel`/`secondLabel` for `first_prefix`/`second_prefix`. -/
structure Content where
  pre : String
  title : String
  firstLabel : String
  first : Nat
  secondLabel : String
  second : Nat
  digits : Nat
  post : String
deriving DecidableEq

/-- The discovery reference (struct `WebFile`, src/modules/types.rs). -/
structure WebFile where
  content : Content
  link : String
deriving DecidableEq

/-- The submission result (struct `WebResponse`, src/modules/types.rs). -/
structure WebResponse where
  content : WebFile
  response : String
  success : Bool
deriving DecidableEq

instance instDecEqExcept {ε α : Type} [DecidableEq ε] [DecidableEq α] :
    DecidableEq (Except ε α) := fun a b =>
  match a, b with
  | .ok x, .ok y =>
    if h : x = y then .isTrue (h ▸ rfl)
    else .isFalse (fun he => h (Except.ok.inj he))
  | .error x, .error y =>
    if h : x = y then .isTrue (h ▸ rfl)
    else .isFalse (fun he => h (Except.error.inj he))
  | .ok _, .error _ => .isFalse (fun he => Except.noConfusion he)
  | .error _, .ok _ => .isFalse (fun he => Except.noConfusion he)

/-- Wrapping successor on `u32` values: the release-profile semantics of
the source's `+= 1` on a `u32` field. -/
def u32succ (n : Nat) : Nat := (n + 1) % 4294967296

/-- Rust's `format!("{:0width$}", n)` for a non-negative integer: the
decimal digits of `n`, left-padded with `'0'` to `width` (no truncation
when the number is already wider). -/
def padZeros (width : Nat) (n : Nat) : String :=
  let s := toString n
  String.mk (List.replicate (width - s.length) '0') ++ s

/-- `Content::to_query` (src/modules/content.rs, impl `Searchable`):
`format!("{}{} {}{:0digits$}{}{:0digits$}{}", prefix, title, first_prefix,
first, second_prefix, second, postfix)`.  Note the format string has a
space after `title` but none between the padded `first` and
`second_prefix`. -/
def to_query (c : Content) : Except String String :=
  Except.ok (c.pre ++ c.title ++ " " ++ c.firstLabel ++ padZeros c.digits c.first
    ++ c.secondLabel ++ padZeros c.digits c.second ++ c.post)

/-- `Content::predict_new_content` (src/modules/content.rs, impl
`Predictable`): clone twice, bump `second` on the first clone, set
`second = 1` and bump `first` on the second clone, return both. -/
def predict_new_content (c : Content) : Except String (List Content) :=
  let next_episode : Content := { c with second := u32succ c.second }
  let next_season : Content := { c with second := 1, first := u32succ c.first }
  Except.ok [next_episode, next_season]

/-- The query string as the source renders it: no space between the padded
first counter and the second label (this is the amended reading of the
spec's format string). -/
def queryCodeFormat (c : Content) : String :=
  c.pre ++ c.title ++ " " ++ c.firstLabel ++ padZeros c.digits c.first
    ++ c.secondLabel ++ padZeros c.digits c.second ++ c.post

/-- The spec example record for the query formatter (`{prefix:"",
title:"Show", first_prefix:"S", first:1, second_prefix:"E", second:9,
digits:2, postfix:""}`). -/
def exShow : Content :=
  { pre := "", title := "Show", firstLabel := "S", first := 1,
    secondLabel := "E", second := 9, digits := 2, post := "" }

/-- Claim C2 (counterexample): on the spec's own example record the query
formatter renders `"Show S01E09"`, not `"Show S01 E09"`: the format string
in `to_query` has no space between the padded first counter and the
second label, so the claimed rendering is false. -/
theorem to_query_space_cex :
    to_query exShow = Except.ok "Show S01E09" ∧
    to_query exShow ≠ Except.ok "Show S01 E09" := by
  constructor
  · decide
  · decide

/-- Claim C2 (amended): `to_query` renders
`"{prefix}{title} {first_prefix}{first:0digits}{second_prefix}{second:0digits}{postfix}"`
with both counters zero-padded on the left to width `digits` and no
space between the padded first counter and the second label; a padded
field has length `max digits (decimal length)`; the example record
renders as `"Show S01E09"`. -/
theorem to_query_format :
    (∀ c : Content, to_query c = Except.ok (queryCodeFormat c)) ∧
    (∀ width n : Nat, (padZeros width n).length = max width (toString n).length) ∧
    to_query exShow = Except.ok "Show S01E09" := by
  refine ⟨fun c => rfl, fun width n => ?_, by decide⟩
  show (String.mk (List.replicate (width - (toString n).length) '0')
      ++ toString n).length = _
  rw [String.length_append]
  show (List.replicate (width - (toString n).length) '0').length
      + (toString n).length = _
  rw [List.length_replicate, Nat.sub_add_eq_max]

/-- The record with both counters at the maximal `u32` value. -/
def cMax : Content :=
  { pre := "", title := "Edge", firstLabel := "S", first := 4294967295,
    secondLabel := "E", second := 4294967295, digits := 2, post := "" }

/-- Claim C3 (counterexample): at `second = u32::MAX` the next-episode
candidate's `second` wraps to `0` (release-profile wrapping), so it is not
`C.second + 1`; likewise the next-season candidate's `first` wraps. -/
theorem predict_wrap_cex :
    predict_new_content cMax =
      Except.ok [{ cMax with second := 0 }, { cMax with second := 1, first := 0 }] ∧
    (0 : Nat) ≠ cMax.second + 1 ∧ (0 : Nat) ≠ cMax.first + 1 := by
  refine ⟨by decide, by decide, by decide⟩

/-- Claim C3 (amended): for every Content Record whose counters are below
`u32::MAX`, `predict_new_content` returns exactly two candidates in order:
first the next-episode candidate (`second = C.second + 1`, `first`
unchanged), then the next-season candidate (`first = C.first + 1`,
`second = 1`), all other fields unchanged; at `u32::MAX` a counter wraps
instead (see the counterexample). -/
theorem predict_two_candidates (c : Content)
    (h1 : c.second + 1 < 4294967296) (h2 : c.first + 1 < 4294967296) :
    predict_new_content c =
      Except.ok [{ c with second := c.second + 1 },
                 { c with first := c.first + 1, second := 1 }] := by
  unfold predict_new_content u32succ
  rw [Nat.mod_eq_of_lt h1, Nat.mod_eq_of_lt h2]

/-- Claim C3 (witness): the amended theorem at the spec's `first = 1,
second = 5` example. -/
theorem predict_two_candidates_witness :
    predict_new_content { exShow with first := 1, second := 5 } =
      Except.ok [{ exShow with first := 1, second := 6 },
                 { exShow with first := 2, second := 1 }] := by
  have h := predict_two_candidates { exShow with first := 1, second := 5 }
    (by decide) (by decide)
  exact h.trans (by decide)

/-- Claim C9: `predict_new_content` never fails: it returns an `Ok` list
of exactly two candidates for every record, including the record whose
counters are both at the maximal `u32` value (the wrapping embedding of
the counter bump is total, so no overflow trap occurs). -/
theorem predict_never_fails :
    (∀ c : Content, ∃ l : List Content,
        predict_new_content c = Except.ok l ∧ l.length = 2) ∧
    (∃ l : List Content, predict_new_content cMax = Except.ok l) := by
  constructor
  · intro c
    exact ⟨[{ c with second := u32succ c.second },
            { c with second := 1, first := u32succ c.first }], rfl, rfl⟩
  · exact ⟨[{ cMax with second := 0 }, { cMax with second := 1, first := 0 }],
      by decide⟩

/-- Per-character lowercasing: the embedding of Rust's `str::to_lowercase`
(the inputs of interest are ASCII, where the two coincide). -/
def lowerStr (s : String) : String := String.mk (s.toList.map Char.toLower)

/-- Helper for substring search: does `pat` occur as a contiguous
subsequence of `s`? -/
def strContainsGo (pat : List Char) : List Char → Bool
  | [] => pat.isEmpty
  | c :: rest => pat.isPrefixOf (c :: rest) || strContainsGo pat rest

/-- Rust's `str::contains(pat)` for a string pattern: substring search. -/
def strContains (s pat : String) : Bool := strContainsGo pat.toList s.toList

/-- Rust's `str::split_whitespace`: split on whitespace runs, dropping
empty fragments. -/
def splitWhitespace (s : String) : List String :=
  ((List.splitOnP Char.isWhitespace s.toList).filter (fun l => l ≠ [])).map
    (fun l => String.mk l)

/-- The pure core of `filter_by_keywords` (src/modules/crawlers.rs):
lowercase the whitespace-split words of `keywords`, then keep the items
for which every word is a (case-sensitive) substring. -/
def keywordFilter (items : List String) (keywords : String) : List String :=
  let words := (splitWhitespace keywords).map lowerStr
  items.filter (fun s => words.all (fun w => strContains s w))

/-- `filter_by_keywords` (src/modules/crawlers.rs): the Rust function
returns `Ok` of the filtered vector, never an error. -/
def filter_by_keywords (items : List String) (keywords : String) :
    Except String (List String) :=
  Except.ok (keywordFilter items keywords)

/-- Claim C4: the keyword filter lowercases only the whitespace-split
query words (not the candidate URLs) and keeps exactly the candidates, in
original order (a sublist of the input), for which every lowercased word
is a case-sensitive substring of the candidate; on the spec example it
keeps `"abc-foo-bar"` and drops `"ABC-FOO-BAR"` and `"xyz"`. -/
theorem keyword_filter_spec :
    (∀ (items : List String) (keywords : String),
      ∃ l : List String, filter_by_keywords items keywords = Except.ok l ∧
        l.Sublist items ∧
        (∀ s, s ∈ l ↔ s ∈ items ∧
          ∀ w ∈ (splitWhitespace keywords).map lowerStr, strContains s w = true)) ∧
    filter_by_keywords ["abc-foo-bar", "ABC-FOO-BAR", "xyz"] "foo bar" =
      Except.ok ["abc-foo-bar"] := by
  constructor
  · intro items keywords
    refine ⟨keywordFilter items keywords, rfl, List.filter_sublist items, ?_⟩
    intro s
    unfold keywordFilter
    rw [List.mem_filter, List.all_eq_true]
  · decide

/-- The `twostageweb` crawler configuration (struct `TwoStageWeb`,
src/modules/crawlers.rs). -/
structure TwoStageWeb where
  url : String
  search_page : String
  search_get_name : String
  categories : List String
  categories_get_name : String
  user_agent : String
  limit : Nat
  first_stage_match : String
  second_stage_match : String

/-- The effectful collaborators of `TwoStageWeb::find`, abstracted as pure
oracles: `parseUrl` models `Url::parse`, `joinUrl` models `Url::join`
(fallible), `appendPair` models `url.query_pairs_mut().append_pair(k, v)`,
`parseUA` models `user_agent.parse::<HeaderValue>()`, `httpGet` models the
blocking GET (send + error_for_status + text), and `parseSelector` models
`Selector::parse`, returning for a selector the function that maps an HTML
document to the `href` attributes (`none` when absent) of the matched
elements in document order. -/
structure WebEnv where
  parseUrl : String → Except String String
  joinUrl : String → String → Except String String
  appendPair : String → String → String → String
  parseUA : String → Except String Unit
  httpGet : String → Except String String
  parseSelector : String → Except String (String → List (Option String))

/-- The stage-1 collection loop of `find`: for each element, if it has an
`href` and `url.join(href)` succeeds, push the resolved URL; otherwise
skip silently. -/
def collectResolved (env : WebEnv) (base : String) :
    List (Option String) → List String
  | [] => []
  | none :: rest => collectResolved env base rest
  | some href :: rest =>
    match env.joinUrl base href with
    | .ok resolved => resolved :: collectResolved env base rest
    | .error _ => collectResolved env base rest

/-- The stage-2 loop of `find`: `link` starts as `""`; the first element
whose `href` resolves sets `link` and breaks; elements without `href` or
whose `href` fails to resolve are skipped. -/
def firstResolvedLink (env : WebEnv) (base : String) :
    List (Option String) → String
  | [] => ""
  | none :: rest => firstResolvedLink env base rest
  | some href :: rest =>
    match env.joinUrl base href with
    | .ok resolved => resolved
    | .error _ => firstResolvedLink env base rest

/-- One element's resolution outcome in the stage loops: `none` when the
element has no `href` or joining fails. -/
def resolveOpt (env : WebEnv) (base : String) : Option String → Option String
  | none => none
  | some href => (env.joinUrl base href).toOption

/-- The second half of `TwoStageWeb::find` (src/modules/crawlers.rs, from
the second header build to the end): fetch the selected stage-1 URL, parse
the stage-2 selector, scan for the first resolvable link — resolved
against `url`, the original search URL passed in by `find` — and fail with
"Search string not found" when the loop left `link` empty. -/
def stage2Run (env : WebEnv) (cfg : TwoStageWeb) (content : Content)
    (url url_string : String) : Except String WebFile :=
  match env.parseUA cfg.user_agent with
  | .error e => .error e
  | .ok _ =>
    match env.httpGet url_string with
    | .error e => .error e
    | .ok html2 =>
      match env.parseSelector cfg.second_stage_match with
      | .error e => .error e
      | .ok sel2 =>
        let link := firstResolvedLink env url (sel2 html2)
        if link = "" then .error "Search string not found"
        else .ok { content := content, link := link }

/-- `TwoStageWeb::find` (src/modules/crawlers.rs, impl `Crawler`): build
the search URL, GET it, collect and resolve the stage-1 links, filter them
by the query keywords, fail with "Nothing found in first stage." when the
filtered list is empty, otherwise continue with its first element
(`url_strings[0]`) into the stage-2 half. -/
def find (env : WebEnv) (cfg : TwoStageWeb) (content : Content) :
    Except String WebFile :=
  match env.parseUrl cfg.url with
  | .error e => .error e
  | .ok base =>
    match env.joinUrl base cfg.search_page with
    | .error e => .error e
    | .ok u0 =>
      match to_query content with
      | .error e => .error e
      | .ok query =>
        let url := cfg.categories.foldl
          (fun acc cat => env.appendPair acc cfg.categories_get_name cat)
          (env.appendPair u0 cfg.search_get_name query)
        match env.parseUA cfg.user_agent with
        | .error e => .error e
        | .ok _ =>
          match env.httpGet url with
          | .error e => .error e
          | .ok html =>
            match env.parseSelector cfg.first_stage_match with
            | .error e => .error e
            | .ok sel1 =>
              match filter_by_keywords (collectResolved env url (sel1 html)) query with
              | .error e => .error e
              | .ok url_strings =>
                match url_strings with
                | [] => .error "Nothing found in first stage."
                | url_string :: _ => stage2Run env cfg content url url_string

/-- Helper: under succeeding URL construction, header parse, stage-1 GET
and selector parse, `find` reduces to the match on the keyword-filtered
stage-1 list. -/
theorem find_stage1_eq (env : WebEnv) (cfg : TwoStageWeb) (content : Content)
    (base u0 query url html : String) (sel1 : String → List (Option String))
    (hb : env.parseUrl cfg.url = .ok base)
    (hj : env.joinUrl base cfg.search_page = .ok u0)
    (hq : to_query content = .ok query)
    (hurl : url = cfg.categories.foldl
      (fun acc cat => env.appendPair acc cfg.categories_get_name cat)
      (env.appendPair u0 cfg.search_get_name query))
    (hua : env.parseUA cfg.user_agent = .ok ())
    (hg : env.httpGet url = .ok html)
    (hs : env.parseSelector cfg.first_stage_match = .ok sel1) :
    find env cfg content =
      match keywordFilter (collectResolved env url (sel1 html)) query with
      | [] => .error "Nothing found in first stage."
      | url_string :: _ => stage2Run env cfg content url url_string := by
  subst hurl
  simp only [find, hb, hj, hq, hua, hg, hs, filter_by_keywords]

/-- Claim C5: under succeeding URL construction, header parses, HTTP GETs
and selector parses, `find` fails with the first-stage-empty error exactly
when the keyword-filtered stage-1 list is empty; otherwise it continues
with the first element of the filtered, order-preserved list, and then
fails with the second-stage-empty error exactly when the stage-2 scan
yields no link, returning a `WebFile` otherwise. -/
theorem find_error_cases (env : WebEnv) (cfg : TwoStageWeb) (content : Content)
    (base u0 query url html : String) (sel1 : String → List (Option String))
    (hb : env.parseUrl cfg.url = .ok base)
    (hj : env.joinUrl base cfg.search_page = .ok u0)
    (hq : to_query content = .ok query)
    (hurl : url = cfg.categories.foldl
      (fun acc cat => env.appendPair acc cfg.categories_get_name cat)
      (env.appendPair u0 cfg.search_get_name query))
    (hua : env.parseUA cfg.user_agent = .ok ())
    (hg : env.httpGet url = .ok html)
    (hs : env.parseSelector cfg.first_stage_match = .ok sel1) :
    (keywordFilter (collectResolved env url (sel1 html)) query = [] →
        find env cfg content = .error "Nothing found in first stage.") ∧
    (∀ u rest, keywordFilter (collectResolved env url (sel1 html)) query = u :: rest →
      find env cfg content = stage2Run env cfg content url u ∧
      ∀ (html2 : String) (sel2 : String → List (Option String)),
        env.httpGet u = .ok html2 →
        env.parseSelector cfg.second_stage_match = .ok sel2 →
        (firstResolvedLink env url (sel2 html2) = "" →
            find env cfg content = .error "Search string not found") ∧
        (∀ l, firstResolvedLink env url (sel2 html2) = l → l ≠ "" →
            find env cfg content = .ok { content := content, link := l })) := by
  have hmain := find_stage1_eq env cfg content base u0 query url html sel1
    hb hj hq hurl hua hg hs
  constructor
  · intro hempty
    rw [hmain, hempty]
  · intro u rest hcons
    rw [hmain, hcons]
    refine ⟨rfl, ?_⟩
    intro html2 sel2 hg2 hs2
    constructor
    · intro hlink
      simp only [stage2Run, hua, hg2, hs2, hlink, if_pos]
    · intro l hl hne
      simp only [stage2Run, hua, hg2, hs2, hl, if_neg hne]

/-- Claim C6: the stage-2 scan takes the matched elements in document
order and returns the first successfully resolved link, skipping elements
without an `href` or whose `href` fails to resolve and ignoring everything
after the first success; and inside `find`, the hrefs of the stage-2 page
are resolved against the original search URL (`url`), not against the
stage-1 page's own base. -/
theorem stage2_resolution (env : WebEnv) :
    (∀ base l, firstResolvedLink env base l =
        (l.filterMap (resolveOpt env base)).headD "") ∧
    (∀ base skipped href resolved rest,
        (∀ o ∈ skipped, resolveOpt env base o = none) →
        env.joinUrl base href = .ok resolved →
        firstResolvedLink env base (skipped ++ some href :: rest) = resolved) ∧
    (∀ (cfg : TwoStageWeb) (content : Content)
        (base u0 query url html : String) (sel1 : String → List (Option String))
        (u : String) (rest : List String),
        env.parseUrl cfg.url = .ok base →
        env.joinUrl base cfg.search_page = .ok u0 →
        to_query content = .ok query →
        url = cfg.categories.foldl
          (fun acc cat => env.appendPair acc cfg.categories_get_name cat)
          (env.appendPair u0 cfg.search_get_name query) →
        env.parseUA cfg.user_agent = .ok () →
        env.httpGet url = .ok html →
        env.parseSelector cfg.first_stage_match = .ok sel1 →
        keywordFilter (collectResolved env url (sel1 html)) query = u :: rest →
        ∀ (html2 : String) (sel2 : String → List (Option String)),
          env.httpGet u = .ok html2 →
          env.parseSelector cfg.second_stage_match = .ok sel2 →
          firstResolvedLink env url (sel2 html2) ≠ "" →
          find env cfg content =
            .ok { content := content,
                  link := firstResolvedLink env url (sel2 html2) }) := by
  refine ⟨?_, ?_, ?_⟩
  · intro base l
    induction l with
    | nil => rfl
    | cons o rest ih =>
      cases o with
      | none =>
        simp only [firstResolvedLink, List.filterMap_cons, resolveOpt]
        exact ih
      | some href =>
        cases hjoin : env.joinUrl base href with
        | ok resolved =>
          simp only [firstResolvedLink, hjoin, List.filterMap_cons, resolveOpt,
            Except.toOption, List.headD_cons]
        | error e =>
          simp only [firstResolvedLink, hjoin, List.filterMap_cons, resolveOpt,
            Except.toOption]
          exact ih
  · intro base skipped href resolved rest hskip hjoin
    induction skipped with
    | nil => simp [firstResolvedLink, hjoin]
    | cons o sk ih =>
      have ho := hskip o (by simp)
      have ih2 := ih (fun o' ho' => hskip o' (by simp [ho']))
      cases o with
      | none => simpa [firstResolvedLink, List.cons_append] using ih2
      | some h2 =>
        cases hj2 : env.joinUrl base h2 with
        | ok r2 => simp [resolveOpt, hj2, Except.toOption] at ho
        | error e =>
          simpa [firstResolvedLink, hj2, List.cons_append] using ih2
  · intro cfg content base u0 query url html sel1 u rest
      hb hj hq hurl hua hg hs hcons html2 sel2 hg2 hs2 hne
    have hmain := find_stage1_eq env cfg content base u0 query url html sel1
      hb hj hq hurl hua hg hs
    rw [hmain, hcons]
    simp only [stage2Run, hua, hg2, hs2, if_neg hne]

/-- A concrete crawler configuration for witnesses. -/
def cfgW : TwoStageWeb :=
  { url := "http://x", search_page := "sp", search_get_name := "q",
    categories := [], categories_get_name := "cat", user_agent := "ua",
    limit := 5, first_stage_match := "a.one", second_stage_match := "a.two" }

/-- A concrete selection oracle: the stage-1 selector matches one link,
the stage-2 selector matches an element without `href` followed by the
asset link. -/
def selDispatch (s : String) : String → List (Option String) :=
  fun _ => if s = "a.one" then [some "show-s01e09"] else [none, some "magnet:xyz"]

/-- A concrete environment on which discovery succeeds end to end. -/
def envHit : WebEnv :=
  { parseUrl := fun s => .ok s
    joinUrl := fun _ href => .ok href
    appendPair := fun u _ _ => u
    parseUA := fun _ => .ok ()
    httpGet := fun _ => .ok "page"
    parseSelector := fun s => .ok (selDispatch s) }

/-- A selection oracle matching no element at all. -/
def selEmpty : String → List (Option String) := fun _ => []

/-- A concrete environment whose stage-1 page yields no links. -/
def envMiss : WebEnv :=
  { parseUrl := fun s => .ok s
    joinUrl := fun _ href => .ok href
    appendPair := fun u _ _ => u
    parseUA := fun _ => .ok ()
    httpGet := fun _ => .ok "page"
    parseSelector := fun _ => .ok selEmpty }

/-- Claim C5 (witness): on `envMiss` the filtered stage-1 list is empty
and `find` fails with the first-stage-empty error; on `envHit` discovery
succeeds and returns the resolved stage-2 link. -/
theorem find_error_cases_witness :
    find envMiss cfgW exShow = .error "Nothing found in first stage." ∧
    find envHit cfgW exShow = .ok { content := exShow, link := "magnet:xyz" } := by
  constructor
  · exact (find_error_cases envMiss cfgW exShow "http://x" "sp" "Show S01E09"
      "sp" "page" selEmpty rfl rfl (by decide) rfl rfl rfl rfl).1 (by decide)
  · have h := (find_error_cases envHit cfgW exShow "http://x" "sp" "Show S01E09"
      "sp" "page" (selDispatch "a.one") rfl rfl (by decide) rfl rfl rfl rfl).2
      "show-s01e09" [] (by decide)
    exact (h.2 "page" (selDispatch "a.two") rfl rfl).2 "magnet:xyz"
      (by decide) (by decide)

/-- Claim C6 (witness): the stage-2 scan of `envHit` skips the
`href`-less element and returns the first resolved link, and `find`
resolves that link against the original search URL `"sp"`. -/
theorem stage2_resolution_witness :
    firstResolvedLink envHit "sp" [none, some "magnet:xyz"] = "magnet:xyz" ∧
    find envHit cfgW exShow =
      .ok { content := exShow,
            link := firstResolvedLink envHit "sp" (selDispatch "a.two" "page") } := by
  constructor
  · exact (stage2_resolution envHit).2.1 "sp" [none] "magnet:xyz" "magnet:xyz" []
      (by intro o ho; rcases List.mem_singleton.mp ho with rfl; rfl) rfl
  · exact (stage2_resolution envHit).2.2 cfgW exShow "http://x" "sp" "Show S01E09"
      "sp" "page" (selDispatch "a.one") "show-s01e09" [] rfl rfl (by decide) rfl
      rfl rfl rfl (by decide) "page" (selDispatch "a.two") rfl rfl (by decide)

/-- A request issued by the submission client: the login POST or the
add-URL POST, with target URL and form fields. -/
inductive Req where
  | login (url : String) (form : List (String × String))
  | add (url : String) (form : List (String × String))
deriving DecidableEq

/-- The effectful collaborators of `add_url_blocking`
(src/modules/fetchers.rs): `mkReferer` models
`HeaderValue::from_str(url)` for the referer header, and
`postLogin`/`postAdd` model the two blocking form POSTs
(send + error_for_status + text) of the cookie-holding session. -/
structure QBEnv where
  mkReferer : String → Except String Unit
  postLogin : String → List (String × String) → Except String String
  postAdd : String → List (String × String) → Except String String

/-- Rust's `url.trim_end_matches('/')`: drop every trailing slash. -/
def trimEndSlashes (s : String) : String :=
  String.mk ((s.toList.reverse.dropWhile (fun c => c = '/')).reverse)

/-- The add-URL POST at the end of `add_url_blocking`: POST
`{urls, savepath}` to `url ++ add_url`, recording the request after the
given earlier requests. -/
def addStep (env : QBEnv) (url au link save_path : String) (trace : List Req) :
    List Req × Except String String :=
  let addTarget := url ++ au
  let addForm := [("urls", link), ("savepath", save_path)]
  match env.postAdd addTarget addForm with
  | .error e => (trace ++ [Req.add addTarget addForm], .error e)
  | .ok add_resp => (trace ++ [Req.add addTarget addForm], .ok add_resp)

/-- `add_url_blocking` (src/modules/fetchers.rs): trim trailing slashes
off the base URL, build the referer header, and — only when `username` is
non-empty — POST the login form to `url ++ login_url`, failing the whole
operation when the POST fails or when the response does not contain
`"ok"` case-insensitively; then POST the add-URL form.  The first
component of the result records the requests actually issued. -/
def add_url_blocking (env : QBEnv)
    (url au lu username password link save_path : String) :
    List Req × Except String String :=
  let url := trimEndSlashes url
  match env.mkReferer url with
  | .error e => ([], .error e)
  | .ok _ =>
    if username ≠ "" then
      let loginTarget := url ++ lu
      let loginForm := [("username", username), ("password", password)]
      match env.postLogin loginTarget loginForm with
      | .error e => ([Req.login loginTarget loginForm], .error e)
      | .ok login_resp =>
        if ¬ (strContains (lowerStr login_resp) "ok" = true) then
          ([Req.login loginTarget loginForm], .error "login failed")
        else
          addStep env url au link save_path [Req.login loginTarget loginForm]
    else
      addStep env url au link save_path []

/-- The `qbfetcher` submission configuration (struct `QBFetcher`,
src/modules/fetchers.rs). -/
structure QBFetcher where
  url : String
  add_url : String
  login_url : String
  username : String
  password : String
  save_path : String

/-- `QBFetcher::fetch` (src/modules/fetchers.rs, impl `Fetcher`): call
`add_url_blocking` with the save path `save_path + content.title`;
propagate its error, and otherwise return a `WebResponse` whose `success`
flag is the response body's equality with `"Ok."`. -/
def QBFetcher.fetch (env : QBEnv) (cfg : QBFetcher) (content : WebFile) :
    List Req × Except String WebResponse :=
  match add_url_blocking env cfg.url cfg.add_url cfg.login_url cfg.username
      cfg.password content.link (cfg.save_path ++ content.content.title) with
  | (trace, .error e) => (trace, .error e)
  | (trace, .ok response) =>
    (trace, .ok { content := content, response := response,
                  success := response == "Ok." })

/-- Claim C7: whenever the HTTP round trip of the submission succeeds
(`add_url_blocking` returns an `Ok` body), `fetch` returns a
`WebResponse` whose success flag is `true` iff the raw body equals
exactly `"Ok."`; any other body yields `success = false` without the
operation returning an error. -/
theorem fetch_success_iff_ok_body (env : QBEnv) (cfg : QBFetcher) (wf : WebFile)
    (trace : List Req) (body : String)
    (h : add_url_blocking env cfg.url cfg.add_url cfg.login_url cfg.username
        cfg.password wf.link (cfg.save_path ++ wf.content.title) =
        (trace, .ok body)) :
    QBFetcher.fetch env cfg wf =
      (trace, .ok { content := wf, response := body, success := body == "Ok." }) ∧
    ((body == "Ok.") = true ↔ body = "Ok.") ∧
    (body ≠ "Ok." →
      QBFetcher.fetch env cfg wf =
        (trace, .ok { content := wf, response := body, success := false })) := by
  refine ⟨?_, beq_iff_eq, ?_⟩
  · unfold QBFetcher.fetch
    rw [h]
  · intro hne
    unfold QBFetcher.fetch
    rw [h]
    simp only [beq_eq_false_iff_ne.mpr hne]

/-- The discovery reference used by the submission witnesses. -/
def wfW : WebFile := { content := exShow, link := "magnet:xyz" }

/-- A submission environment whose add POST answers `"OK."` (wrong
casing) and whose login POST is never consulted. -/
def qenvAnon : QBEnv :=
  { mkReferer := fun _ => .ok ()
    postLogin := fun _ _ => .error "unused"
    postAdd := fun _ _ => .ok "OK." }

/-- A submission configuration with an empty username (anonymous mode). -/
def cfgAnon : QBFetcher :=
  { url := "http://q/", add_url := "/add", login_url := "/login",
    username := "", password := "pw", save_path := "sv/" }

/-- Claim C7 (witness): with the add endpoint answering `"OK."` (not
exactly `"Ok."`), `fetch` returns `Ok` with `success = false`. -/
theorem fetch_success_iff_ok_body_witness :
    QBFetcher.fetch qenvAnon cfgAnon wfW =
      ([Req.add "http://q/add" [("urls", "magnet:xyz"), ("savepath", "sv/Show")]],
        .ok { content := wfW, response := "OK.", success := false }) := by
  have h := fetch_success_iff_ok_body qenvAnon cfgAnon wfW
    [Req.add "http://q/add" [("urls", "magnet:xyz"), ("savepath", "sv/Show")]]
    "OK." (by decide)
  exact h.2.2 (by decide)

/-- Claim C8: the login POST is issued iff the configured username is
non-empty.  With an empty username no login request appears in the trace
and the result does not depend on the login oracle at all; with a
non-empty username the login request is in the trace, a failing login
POST or a response without the substring `"ok"` (case-insensitively)
fails the whole operation before any add request, and a response
containing `"ok"` proceeds to the add POST. -/
theorem addStep_fst (env : QBEnv) (url au link sp : String) (trace : List Req) :
    (addStep env url au link sp trace).1 =
      trace ++ [Req.add (url ++ au) [("urls", link), ("savepath", sp)]] := by
  cases h : env.postAdd (url ++ au) [("urls", link), ("savepath", sp)] with
  | error e => simp [addStep, h]
  | ok r => simp [addStep, h]

theorem add_url_blocking_empty_user (env : QBEnv)
    (url au lu pass link sp : String) :
    add_url_blocking env url au lu "" pass link sp =
      match env.mkReferer (trimEndSlashes url) with
      | .error e => ([], .error e)
      | .ok _ => addStep env (trimEndSlashes url) au link sp [] := by
  unfold add_url_blocking
  simp

theorem add_url_blocking_user (env : QBEnv)
    (url au lu user pass link sp : String) (hu : user ≠ "") :
    add_url_blocking env url au lu user pass link sp =
      match env.mkReferer (trimEndSlashes url) with
      | .error e => ([], .error e)
      | .ok _ =>
        match env.postLogin (trimEndSlashes url ++ lu)
            [("username", user), ("password", pass)] with
        | .error e =>
          ([Req.login (trimEndSlashes url ++ lu)
              [("username", user), ("password", pass)]], .error e)
        | .ok login_resp =>
          if ¬ strContains (lowerStr login_resp) "ok" = true then
            ([Req.login (trimEndSlashes url ++ lu)
                [("username", user), ("password", pass)]], .error "login failed")
          else
            addStep env (trimEndSlashes url) au link sp
              [Req.login (trimEndSlashes url ++ lu)
                [("username", user), ("password", pass)]] := by
  unfold add_url_blocking
  simp [hu]

theorem login_step_spec (env env' : QBEnv)
    (url au lu user pass link sp : String)
    (hmr' : env'.mkReferer = env.mkReferer) (hpa' : env'.postAdd = env.postAdd) :
    (user = "" →
      (∀ t f, Req.login t f ∉
          (add_url_blocking env url au lu user pass link sp).1) ∧
      add_url_blocking env url au lu user pass link sp =
        add_url_blocking env' url au lu user pass link sp) ∧
    (user ≠ "" → env.mkReferer (trimEndSlashes url) = .ok () →
      (Req.login (trimEndSlashes url ++ lu) [("username", user), ("password", pass)] ∈
          (add_url_blocking env url au lu user pass link sp).1) ∧
      (∀ e, env.postLogin (trimEndSlashes url ++ lu)
            [("username", user), ("password", pass)] = .error e →
        add_url_blocking env url au lu user pass link sp =
          ([Req.login (trimEndSlashes url ++ lu)
              [("username", user), ("password", pass)]], .error e)) ∧
      (∀ resp, env.postLogin (trimEndSlashes url ++ lu)
            [("username", user), ("password", pass)] = .ok resp →
        strContains (lowerStr resp) "ok" = false →
        add_url_blocking env url au lu user pass link sp =
          ([Req.login (trimEndSlashes url ++ lu)
              [("username", user), ("password", pass)]], .error "login failed")) ∧
      (∀ resp, env.postLogin (trimEndSlashes url ++ lu)
            [("username", user), ("password", pass)] = .ok resp →
        strContains (lowerStr resp) "ok" = true →
        add_url_blocking env url au lu user pass link sp =
          addStep env (trimEndSlashes url) au link sp
            [Req.login (trimEndSlashes url ++ lu)
              [("username", user), ("password", pass)]])) := by
  constructor
  · intro hu
    subst hu
    constructor
    · intro t f
      rw [add_url_blocking_empty_user]
      cases hmr : env.mkReferer (trimEndSlashes url) with
      | error e => simp
      | ok u0 =>
        rw [addStep_fst]
        simp
    · rw [add_url_blocking_empty_user, add_url_blocking_empty_user, hmr']
      cases hmr : env.mkReferer (trimEndSlashes url) with
      | error e => rfl
      | ok u0 =>
        unfold addStep
        rw [hpa']
  · intro hu hmr
    rw [add_url_blocking_user env url au lu user pass link sp hu, hmr]
    cases hpl : env.postLogin (trimEndSlashes url ++ lu)
        [("username", user), ("password", pass)] with
    | error e =>
      refine ⟨by simp, fun e2 he2 => ?_,
        fun resp hresp hok => absurd hresp (by simp),
        fun resp hresp hok => absurd hresp (by simp)⟩
      cases Except.error.inj he2
      simp
    | ok resp0 =>
      cases hok0 : strContains (lowerStr resp0) "ok" with
      | false =>
        refine ⟨by simp [hok0], fun e2 he2 => absurd he2 (by simp),
          fun resp hresp hok => ?_, fun resp hresp hok => ?_⟩
        · cases Except.ok.inj hresp
          simp [hok0]
        · cases Except.ok.inj hresp
          exact absurd hok (by simp [hok0])
      | true =>
        refine ⟨by simp [hok0, addStep_fst], fun e2 he2 => absurd he2 (by simp),
          fun resp hresp hok => ?_, fun resp hresp hok => ?_⟩
        · cases Except.ok.inj hresp
          exact absurd hok (by simp [hok0])
        · cases Except.ok.inj hresp
          simp [hok0]

/-- A submission environment whose login POST answers `"Fails."` (no
`"ok"` substring) and whose add POST answers `"Ok."`. -/
def qenvLogin : QBEnv :=
  { mkReferer := fun _ => .ok ()
    postLogin := fun _ _ => .ok "Fails."
    postAdd := fun _ _ => .ok "Ok." }

/-- Claim C8 (witness): with username `"admin"` the login request is
issued and its `"Fails."` response fails the whole operation with the
login-failed error; with an empty username no login request is issued. -/
theorem login_step_spec_witness :
    add_url_blocking qenvLogin "http://q/" "/add" "/login" "admin" "pw"
      "magnet:xyz" "sv" =
      ([Req.login "http://q/login" [("username", "admin"), ("password", "pw")]],
        .error "login failed") ∧
    Req.login "http://q/login" [("username", "admin"), ("password", "pw")] ∉
      (add_url_blocking qenvLogin "http://q/" "/add" "/login" "" "pw"
        "magnet:xyz" "sv").1 := by
  constructor
  · have h := (login_step_spec qenvLogin qenvLogin "http://q/" "/add" "/login"
      "admin" "pw" "magnet:xyz" "sv" rfl rfl).2 (by decide) rfl
    exact (h.2.2.1 "Fails." rfl (by decide)).trans (by decide)
  · exact ((login_step_spec qenvLogin qenvLogin "http://q/" "/add" "/login" ""
      "pw" "magnet:xyz" "sv" rfl rfl).1 rfl).1
      "http://q/login" [("username", "admin"), ("password", "pw")]

/-- A discovery strategy as the Orchestrator sees it (`Box<dyn Crawler>`):
`find` on a candidate record. -/
abbrev Crawler := Content → Except String WebFile

/-- A submission strategy as the Orchestrator sees it (`Box<dyn Fetcher>`):
`fetch` on a discovery reference. -/
abbrev Fetcher := WebFile → Except String WebResponse

/-- The inner candidate loop of `main` (src/main.rs): for each predicted
candidate, call `crawlers[0].find` and on success `fetchers[0].fetch`; an
error from either logs and continues with the next candidate; an `Ok`
fetch result accepts the candidate (`break`).  `none` models the panic of
indexing an empty strategy vector; `some none` means every candidate was
exhausted; `some (some n)` means candidate `n` was accepted.  Note the
accepted `WebResponse` is only logged: its `success` flag is not
inspected. -/
def tryCandidates (crawlers : List Crawler) (fetchers : List Fetcher) :
    List Content → Option (Option Content)
  | [] => some none
  | n :: rest =>
    match crawlers.head? with
    | none => none
    | some crawler =>
      match crawler n with
      | .error _ => tryCandidates crawlers fetchers rest
      | .ok webFile =>
        match fetchers.head? with
        | none => none
        | some fetcher =>
          match fetcher webFile with
          | .error _ => tryCandidates crawlers fetchers rest
          | .ok _ => some (some n)

/-- The outer record loop of `main` (src/main.rs): `done` is the already
processed prefix of the content list (`contents[0..i]`), the third list
accumulates the snapshots persisted by `save_contents`.  On acceptance of
candidate `n` the record is replaced in place and the whole store is
persisted immediately.  `none` models abnormal termination (the panic of
`crawlers[0]`/`fetchers[0]` on an empty vector, or a propagated
`predict_new_content` error — the latter never occurs). -/
def runAux (crawlers : List Crawler) (fetchers : List Fetcher) :
    List Content → List Content → List (List Content) →
      Option (List Content × List (List Content))
  | done, [], saves => some (done, saves)
  | done, c :: todo, saves =>
    match predict_new_content c with
    | .error _ => none
    | .ok preds =>
      match tryCandidates crawlers fetchers preds with
      | none => none
      | some none => runAux crawlers fetchers (done ++ [c]) todo saves
      | some (some n) =>
        runAux crawlers fetchers (done ++ [n]) todo (saves ++ [done ++ n :: todo])

/-- The whole record-processing phase of `main`: the final content list
together with the sequence of store snapshots persisted along the way. -/
def runMain (crawlers : List Crawler) (fetchers : List Fetcher)
    (contents : List Content) : Option (List Content × List (List Content)) :=
  runAux crawlers fetchers [] contents []

theorem tryCandidates_congr (cs cs' : List Crawler) (fs fs' : List Fetcher)
    (hc : cs.head? = cs'.head?) (hf : fs.head? = fs'.head?) :
    ∀ cands, tryCandidates cs fs cands = tryCandidates cs' fs' cands := by
  intro cands
  induction cands with
  | nil => rfl
  | cons n rest ih =>
    unfold tryCandidates
    rw [← hc, ← hf]
    cases cs.head? with
    | none => rfl
    | some cr =>
      dsimp only
      cases cr n with
      | error e => exact ih
      | ok wf =>
        dsimp only
        cases fs.head? with
        | none => rfl
        | some f =>
          dsimp only
          cases f wf with
          | error e => exact ih
          | ok wr => rfl

theorem runAux_congr (cs cs' : List Crawler) (fs fs' : List Fetcher)
    (hc : cs.head? = cs'.head?) (hf : fs.head? = fs'.head?) :
    ∀ todo done saves,
      runAux cs fs done todo saves = runAux cs' fs' done todo saves := by
  intro todo
  induction todo with
  | nil => intro done saves; rfl
  | cons c todo ih =>
    intro done saves
    unfold runAux
    cases predict_new_content c with
    | error e => rfl
    | ok preds =>
      dsimp only
      rw [tryCandidates_congr cs cs' fs fs' hc hf preds]
      cases tryCandidates cs' fs' preds with
      | none => rfl
      | some o =>
        cases o with
        | none => exact ih (done ++ [c]) saves
        | some n => exact ih (done ++ [n]) (saves ++ [done ++ n :: todo])

/-- Claim C10: the Orchestrator's behaviour depends only on the heads of
the crawler and fetcher lists (elements past index 0 never influence the
run), and with a non-empty content list and an empty crawler list the run
panics (modelled `none`) instead of returning an error. -/
theorem main_first_strategy_only :
    (∀ (cs cs' : List Crawler) (fs fs' : List Fetcher) (contents : List Content),
        cs.head? = cs'.head? → fs.head? = fs'.head? →
        runMain cs fs contents = runMain cs' fs' contents) ∧
    (∀ (fs : List Fetcher) (c : Content) (rest : List Content),
        runMain [] fs (c :: rest) = none) := by
  constructor
  · intro cs cs' fs fs' contents hc hf
    exact runAux_congr cs cs' fs fs' hc hf contents [] []
  · intro fs c rest
    simp [runMain, runAux, predict_new_content, tryCandidates]

/-- A record mid-season, as in the spec's predictor example. -/
def c0 : Content :=
  { pre := "", title := "Show", firstLabel := "S", first := 1,
    secondLabel := "E", second := 5, digits := 2, post := "" }

/-- The next-episode candidate of `c0`. -/
def c0next : Content := { c0 with second := 6 }

/-- A crawler that always finds a fixed link. -/
def crOk : Crawler := fun c => .ok { content := c, link := "magnet:xyz" }

/-- A fetcher that always returns `Ok` with `success = false` (the
endpoint responded, but not with the expected success marker). -/
def feFail : Fetcher :=
  fun wf => .ok { content := wf, response := "Fails.", success := false }

/-- A fetcher that always returns `Ok` with `success = true`. -/
def feOk : Fetcher :=
  fun wf => .ok { content := wf, response := "Ok.", success := true }

/-- A crawler that always fails. -/
def crErr : Crawler := fun _ => .error "nothing"

/-- Claim C1 (counterexample): with a submission strategy whose fetch
returns `Ok` with `success = false`, the Orchestrator still replaces the
record with the first candidate and persists the store once — it does not
continue to the next candidate, so replacement is not conditional on
`success = true`. -/
theorem orchestrator_ignores_success_flag_cex :
    feFail { content := c0next, link := "magnet:xyz" } =
      .ok { content := { content := c0next, link := "magnet:xyz" },
            response := "Fails.", success := false } ∧
    runMain [crOk] [feFail] [c0] = some ([c0next], [[c0next]]) ∧
    c0next ≠ c0 := by
  refine ⟨rfl, by decide, by decide⟩

/-- Claim C1 (amended): the Orchestrator accepts a candidate — replacing
the record in the store and persisting immediately — exactly when `find`
and `fetch` both return `Ok`, regardless of the returned `success` flag;
it logs and continues to the next candidate only when `find` or `fetch`
returns an error. -/
theorem orchestrator_replace_on_ok_fetch
    (cs : List Crawler) (fs : List Fetcher) (cr : Crawler) (f : Fetcher)
    (hc : cs.head? = some cr) (hf : fs.head? = some f) :
    (∀ n rest wf wr, cr n = .ok wf → f wf = .ok wr →
        tryCandidates cs fs (n :: rest) = some (some n)) ∧
    (∀ n rest e, cr n = .error e →
        tryCandidates cs fs (n :: rest) = tryCandidates cs fs rest) ∧
    (∀ n rest wf e, cr n = .ok wf → f wf = .error e →
        tryCandidates cs fs (n :: rest) = tryCandidates cs fs rest) ∧
    (∀ done c todo saves preds n, predict_new_content c = .ok preds →
        tryCandidates cs fs preds = some (some n) →
        runAux cs fs done (c :: todo) saves =
          runAux cs fs (done ++ [n]) todo (saves ++ [done ++ n :: todo])) := by
  refine ⟨?_, ?_, ?_, ?_⟩
  · intro n rest wf wr hcr hfw
    conv_lhs => rw [tryCandidates.eq_def]
    dsimp only
    rw [hc]
    dsimp only
    rw [hcr]
    dsimp only
    rw [hf]
    dsimp only
    rw [hfw]
  · intro n rest e hcr
    conv_lhs => rw [tryCandidates.eq_def]
    dsimp only
    rw [hc]
    dsimp only
    rw [hcr]
  · intro n rest wf e hcr hfw
    conv_lhs => rw [tryCandidates.eq_def]
    dsimp only
    rw [hc]
    dsimp only
    rw [hcr]
    dsimp only
    rw [hf]
    dsimp only
    rw [hfw]
  · intro done c todo saves preds n hpred htry
    conv_lhs => rw [runAux.eq_def]
    dsimp only
    rw [hpred]
    dsimp only
    rw [htry]

/-- Claim C1 (witness): the amended theorem at the concrete always-Ok
crawler and the `success = false` fetcher. -/
theorem orchestrator_replace_on_ok_fetch_witness :
    tryCandidates [crOk] [feFail] [c0next] = some (some c0next) ∧
    runAux [crOk] [feFail] [] [c0] [] = runAux [crOk] [feFail] [c0next] [] [[c0next]] := by
  have h := orchestrator_replace_on_ok_fetch [crOk] [feFail] crOk feFail rfl rfl
  constructor
  · exact h.1 c0next [] { content := c0next, link := "magnet:xyz" }
      { content := { content := c0next, link := "magnet:xyz" },
        response := "Fails.", success := false } rfl rfl
  · have h4 := h.2.2.2 [] c0 [] [] [c0next, { c0 with first := 2, second := 1 }]
      c0next (by decide) (by decide)
    exact h4.trans (by decide)

/-- Claim C10 (witness): the head-only dependence at concrete strategy
lists, and the panic on an empty crawler list. -/
theorem main_first_strategy_only_witness :
    runMain [crOk] [feOk] [c0] = runMain [crOk, crErr] [feOk, feFail] [c0] ∧
    runMain [] [feOk] [c0] = none := by
  constructor
  · exact main_first_strategy_only.1 [crOk] [crOk, crErr] [feOk] [feOk, feFail]
      [c0] rfl rfl
  · exact main_first_strategy_only.2 [feOk] c0 []

end RustySpider
